import Mathlib

/-!
AsyncFileChannel: open-option translation, completion handle, file channel

A shallow embedding of `OpenOption.h`, `AsyncFileChannel.cpp` and `Future.cpp`.
Both build variants (`#ifdef _WIN32` and `#else`) are embedded, in the
namespaces `Win32` and `Posix`. Machine integers are `Nat`/`Int` with explicit
wrap-around. Native calls are recorded in a call list, and what the native
layer answers is an explicit argument of the operation that asks.
-/

namespace Mcech

/-! ## OpenOption.h -/

namespace OpenOption

def READ : Nat := 0b00000000
def WRITE : Nat := 0b00000001
def APPEND : Nat := 0b00000010
def CREATE : Nat := 0b00000100
def CREATE_NEW : Nat := 0b00001000
def TRUNCATE : Nat := 0b00010000
def SYNC : Nat := 0b00100000
def DSYNC : Nat := 0b01000000
def DIRECT : Nat := 0b10000000

/-- The `operator|` of OpenOption.h: the OR of the two values, cast back to the
`uint8_t`-based enumeration. -/
def bor (lhs rhs : Nat) : Nat := (lhs ||| rhs) % 256

/-- The `operator&` of AsyncFileChannel.cpp: the AND of the two values, returned
as `uint8_t`. -/
def band (lhs rhs : Nat) : Nat := (lhs &&& rhs) % 256

/-- The condition `if (opt & flag)`: the `uint8_t` converted to `bool`. -/
def test (opt flag : Nat) : Bool := band opt flag != 0

end OpenOption

open OpenOption

/-! ## Native constants

The values of the `O_*` macros and of the Windows SDK constants are not part of
the repository; the translation takes them as a parameter. -/

/-- The `<fcntl.h>` constants `open()` uses. -/
structure PosixConsts where
  O_RDONLY : Nat
  O_RDWR : Nat
  O_APPEND : Nat
  O_CREAT : Nat
  O_EXCL : Nat
  O_TRUNC : Nat
  O_SYNC : Nat
  O_DSYNC : Nat
  O_DIRECT : Nat
  EAGAIN : Nat
  EINVAL : Nat
  /-- Ticks of `std::chrono::system_clock` in one millisecond. -/
  ticks_per_ms : Int
  deriving DecidableEq

/-- The `<Windows.h>` constants `open()` uses. -/
structure Win32Consts where
  FILE_GENERIC_READ : Nat
  FILE_GENERIC_WRITE : Nat
  FILE_APPEND_DATA : Nat
  CREATE_NEW : Nat
  CREATE_ALWAYS : Nat
  OPEN_ALWAYS : Nat
  TRUNCATE_EXISTING : Nat
  OPEN_EXISTING : Nat
  FILE_FLAG_OVERLAPPED : Nat
  FILE_FLAG_WRITE_THROUGH : Nat
  FILE_FLAG_NO_BUFFERING : Nat
  ERROR_IO_INCOMPLETE : Nat
  WAIT_TIMEOUT : Nat
  /-- Ticks of `std::chrono::system_clock` in one millisecond. -/
  ticks_per_ms : Int
  deriving DecidableEq

/-- The values of glibc on x86-64 Linux (`O_SYNC` is `04010000`, which contains
the `O_DSYNC` bit `010000`). -/
def linuxConsts : PosixConsts where
  O_RDONLY := 0o0
  O_RDWR := 0o2
  O_APPEND := 0o2000
  O_CREAT := 0o100
  O_EXCL := 0o200
  O_TRUNC := 0o1000
  O_SYNC := 0o4010000
  O_DSYNC := 0o10000
  O_DIRECT := 0o40000
  EAGAIN := 11
  EINVAL := 22
  ticks_per_ms := 1000000

/-- The values of the Windows SDK. -/
def sdkConsts : Win32Consts where
  FILE_GENERIC_READ := 0x120089
  FILE_GENERIC_WRITE := 0x120116
  FILE_APPEND_DATA := 0x4
  CREATE_NEW := 1
  CREATE_ALWAYS := 2
  OPEN_ALWAYS := 4
  TRUNCATE_EXISTING := 5
  OPEN_EXISTING := 3
  FILE_FLAG_OVERLAPPED := 0x40000000
  FILE_FLAG_WRITE_THROUGH := 0x80000000
  FILE_FLAG_NO_BUFFERING := 0x20000000
  ERROR_IO_INCOMPLETE := 996
  WAIT_TIMEOUT := 258
  ticks_per_ms := 10000

/-- The bits of the POSIX flag word that express creation and truncation. -/
def PosixConsts.creation_mask (k : PosixConsts) : Nat :=
  k.O_CREAT ||| k.O_EXCL ||| k.O_TRUNC

/-- None of the other constants `open()` ORs into the flag word shares a bit
with the creation and truncation bits. -/
def PosixConsts.creation_separate (k : PosixConsts) : Prop :=
  (k.O_RDONLY ||| k.O_RDWR ||| k.O_APPEND ||| k.O_SYNC ||| k.O_DSYNC ||| k.O_DIRECT)
    &&& k.creation_mask = 0

/-- None of the other constants `open()` ORs into the flag word shares a bit
with `O_SYNC` or `O_DSYNC`. -/
def PosixConsts.sync_separate (k : PosixConsts) : Prop :=
  (k.O_RDONLY ||| k.O_RDWR ||| k.O_APPEND ||| k.O_CREAT ||| k.O_EXCL ||| k.O_TRUNC
    ||| k.O_DIRECT) &&& (k.O_SYNC ||| k.O_DSYNC) = 0

/-- The other two file flags share no bit with `FILE_FLAG_WRITE_THROUGH`. -/
def Win32Consts.sync_separate (w : Win32Consts) : Prop :=
  (w.FILE_FLAG_OVERLAPPED ||| w.FILE_FLAG_NO_BUFFERING) &&& w.FILE_FLAG_WRITE_THROUGH = 0

instance (k : PosixConsts) : Decidable k.creation_separate := by
  unfold PosixConsts.creation_separate
  infer_instance

instance (k : PosixConsts) : Decidable k.sync_separate := by
  unfold PosixConsts.sync_separate
  infer_instance

instance (w : Win32Consts) : Decidable w.sync_separate := by
  unfold Win32Consts.sync_separate
  infer_instance

/-! ## AsyncFileChannel::open, the translation of the options -/

namespace Posix

/-- The `flags` argument `open()` passes to `open64` (AsyncFileChannel.cpp,
lines 120-162). -/
def open_flags (k : PosixConsts) (opt : Nat) : Nat :=
  let flags := k.O_RDONLY
  let flags :=
    if test opt WRITE then
      let flags := k.O_RDWR
      if test opt APPEND then flags ||| k.O_APPEND else flags
    else flags
  let flags :=
    if test opt OpenOption.CREATE_NEW then flags ||| (k.O_CREAT ||| k.O_EXCL)
    else if test opt CREATE && test opt TRUNCATE && test opt WRITE then
      flags ||| (k.O_CREAT ||| k.O_TRUNC)
    else if test opt CREATE then flags ||| k.O_CREAT
    else if test opt TRUNCATE && test opt WRITE then flags ||| k.O_TRUNC
    else flags
  let flags :=
    if test opt SYNC then flags ||| k.O_SYNC
    else if test opt DSYNC then flags ||| k.O_DSYNC
    else flags
  let flags := if test opt DIRECT then flags ||| k.O_DIRECT else flags
  flags

end Posix

namespace Win32

/-- The three computed arguments of `CreateFileA`. -/
structure CreateFileArgs where
  desired_access : Nat
  creation_disposition : Nat
  flags : Nat
  deriving DecidableEq

/-- The arguments `open()` computes for `CreateFileA` (AsyncFileChannel.cpp,
lines 62-105). -/
def open_args (w : Win32Consts) (opt : Nat) : CreateFileArgs :=
  let desired_access := w.FILE_GENERIC_READ
  let desired_access :=
    if test opt WRITE then
      let desired_access := desired_access ||| w.FILE_GENERIC_WRITE
      if test opt APPEND then desired_access ||| w.FILE_APPEND_DATA else desired_access
    else desired_access
  let creation_disposition :=
    if test opt OpenOption.CREATE_NEW then w.CREATE_NEW
    else if test opt CREATE && test opt TRUNCATE && test opt WRITE then w.CREATE_ALWAYS
    else if test opt CREATE then w.OPEN_ALWAYS
    else if test opt TRUNCATE && test opt WRITE then w.TRUNCATE_EXISTING
    else w.OPEN_EXISTING
  let flags := w.FILE_FLAG_OVERLAPPED
  let flags :=
    if test opt SYNC || test opt DSYNC then flags ||| w.FILE_FLAG_WRITE_THROUGH else flags
  let flags := if test opt DIRECT then flags ||| w.FILE_FLAG_NO_BUFFERING else flags
  { desired_access := desired_access, creation_disposition := creation_disposition,
    flags := flags }

end Win32


/-! ## Exceptions, native calls, outcomes -/

/-- What a member function throws. -/
inductive Exn where
  /-- The `std::future_error(std::future_errc::no_state)` of the wait family. -/
  | future_error_no_state
  /-- The `std::ios_base::failure` built from `static_cast<std::errc>(code)`. -/
  | ios_failure (code : Nat)
  deriving DecidableEq

/-- The `std::future_status` values the wait family returns. -/
inductive future_status where
  | ready
  | timeout
  deriving DecidableEq

/-- The native calls made on a file handle or on a job structure, with the
arguments that matter. `delete_job` is the `delete` of the job structure. -/
inductive Call where
  | GetOverlappedResult (fd : Int) (job : Nat)
  | GetOverlappedResultEx (fd : Int) (job : Nat) (timeout : Nat)
  | aio_suspend64 (job : Nat) (timeout : Option (Int × Int))
  | aio_return64 (job : Nat)
  | delete_job (job : Nat)
  | ReadFile (fd : Int) (off : Nat) (len : Nat) (job : Nat)
  | WriteFile (fd : Int) (off : Nat) (len : Nat) (job : Nat)
  | aio_read64 (fd : Int) (off : Nat) (len : Nat) (job : Nat)
  | aio_write64 (fd : Int) (off : Nat) (len : Nat) (job : Nat)
  | fsync (fd : Int)
  | fdatasync (fd : Int)
  | FlushFileBuffers (fd : Int)
  | close (fd : Int)
  | CloseHandle (fd : Int)
  | fstat64 (fd : Int)
  | posix_fallocate64 (fd : Int) (offset : Int) (len : Int)
  | GetFileInformationByHandleEx (fd : Int)
  | SetFileInformationByHandle (fd : Int) (end_of_file : Int)
  | open64 (path : String) (flags : Nat)
  | CreateFileA (path : String) (args : Win32.CreateFileArgs)
  deriving DecidableEq

/-- How a call of a member function ends: the value it returns or the exception
it throws, the object as the call leaves it (assignments made before a `throw`
stay), and the native calls it made, in order. -/
structure Outcome (σ α : Type) where
  value : Except Exn α
  state : σ
  calls : List Call

/-- Conversion to `uint32_t`. -/
def to_uint32 (x : Nat) : Nat := x % 2 ^ 32

/-- Conversion of an `ssize_t` to the 64-bit `size_t`. -/
def to_size_t (x : Int) : Nat := (x % 2 ^ 64).toNat

/-- Conversion of a `uint64_t` to the signed 64-bit `off64_t` / `LONGLONG`. -/
def to_int64 (x : Nat) : Int :=
  if x % 2 ^ 64 < 2 ^ 63 then ((x % 2 ^ 64 : Nat) : Int) else ((x % 2 ^ 64 : Nat) : Int) - 2 ^ 64

/-! ## Future.h -/

/-- The data members of `Future`; `fd_ = -1` and `job_ = 0` (`nullptr`) are the
default member initialisers. -/
structure Future where
  fd_ : Int
  job_ : Nat
  result_ : Nat
  error_ : Nat
  deriving DecidableEq

namespace Future

/-- The default constructor `Future()`. -/
def default : Future := { fd_ := -1, job_ := 0, result_ := 0, error_ := 0 }

/-- The private constructor `Future(fd, job)`. -/
def make (fd : Int) (job : Nat) : Future := { fd_ := fd, job_ := job, result_ := 0, error_ := 0 }

/-- The member `valid()`. -/
def valid (f : Future) : Bool := f.job_ != 0

end Future

/-! ## Future.cpp, the `#else` variant -/

namespace Posix

/-- What the native layer answers during one wait: the return value of
`aio_suspend64`, the `errno` it leaves, and the return value of `aio_return64`
(read only when `aio_suspend64` returned 0). -/
structure AioReply where
  suspend : Int
  errno : Nat
  ret : Int
  deriving DecidableEq

namespace Future

/-- The member `wait()`. -/
def wait (f : Future) (r : AioReply) : Outcome Future Unit :=
  if !f.valid then
    { value := .error .future_error_no_state, state := f, calls := [] }
  else if r.suspend != 0 then
    { value := .ok (), state := { f with error_ := to_uint32 r.errno },
      calls := [.aio_suspend64 f.job_ none] }
  else
    { value := .ok (), state := { f with result_ := to_size_t r.ret },
      calls := [.aio_suspend64 f.job_ none, .aio_return64 f.job_] }

/-- The member `wait_for(rel_time)`; `rel_time` is the count of milliseconds. -/
def wait_for (k : PosixConsts) (f : Future) (rel_time : Int) (r : AioReply) :
    Outcome Future future_status :=
  if !f.valid then
    { value := .error .future_error_no_state, state := f, calls := [] }
  else
    let tv_sec := Int.tdiv rel_time 1000
    let tv_nsec := Int.tmod rel_time 1000 * 1000000
    let suspend := Call.aio_suspend64 f.job_ (some (tv_sec, tv_nsec))
    if r.suspend != 0 then
      let f := { f with error_ := to_uint32 r.errno }
      if f.error_ == k.EAGAIN then
        { value := .ok .timeout, state := f, calls := [suspend] }
      else
        { value := .error (.ios_failure f.error_), state := f, calls := [suspend] }
    else
      { value := .ok .ready, state := { f with result_ := to_size_t r.ret },
        calls := [suspend, .aio_return64 f.job_] }

/-- The member `wait_until(abs_time)`; `abs_time` and `now` (what
`system_clock::now()` returns) are counts of clock ticks, and the
`duration_cast` to milliseconds truncates. -/
def wait_until (k : PosixConsts) (f : Future) (abs_time now : Int) (r : AioReply) :
    Outcome Future future_status :=
  wait_for k f (Int.tdiv (abs_time - now) k.ticks_per_ms) r

/-- The member `get()`. -/
def get (f : Future) (r : AioReply) : Outcome Future Nat :=
  let w := wait f r
  match w.value with
  | .error e => { value := .error e, state := w.state, calls := w.calls }
  | .ok _ =>
    let f := { w.state with fd_ := -1 }
    let calls := w.calls ++ [.delete_job f.job_]
    let f := { f with job_ := 0 }
    if f.result_ == 0 then
      { value := .error (.ios_failure f.error_), state := f, calls := calls }
    else
      { value := .ok f.result_, state := f, calls := calls }

/-- The body of the destructor `~Future()`. It has no handler: an exception of
`get()` leaves the body, which the `.error` value records. -/
def destroy (f : Future) (r : AioReply) : Outcome Future Unit :=
  if f.valid then
    let g := get f r
    { value := g.value.map (fun _ => ()), state := g.state, calls := g.calls }
  else
    { value := .ok (), state := f, calls := [] }

/-- The move assignment `operator=(Future&& x)` for `x` another object than
`*this`; the state is the pair of `*this` and `x`. The `catch (...)` drops
what `get()` throws. -/
def move_assign (self x : Future) (r : AioReply) : Outcome (Future × Future) Unit :=
  let g : Outcome Future Nat :=
    if self.valid then get self r else { value := .ok 0, state := self, calls := [] }
  { value := .ok (),
    state := ({ fd_ := x.fd_, job_ := x.job_, result_ := x.result_, error_ := x.error_ },
              { fd_ := -1, job_ := 0, result_ := 0, error_ := 0 }),
    calls := g.calls }

end Future

end Posix

/-! ## Future.cpp, the `_WIN32` variant -/

namespace Win32

/-- What the native layer answers during one wait: whether
`GetOverlappedResult(Ex)` returned non-`FALSE`, the `DWORD` byte count it
stored, and what `GetLastError()` returns after it. -/
structure OverlappedReply where
  success : Bool
  bytes : Nat
  last_error : Nat
  deriving DecidableEq

namespace Future

/-- The member `wait()`. -/
def wait (f : Future) (r : OverlappedReply) : Outcome Future Unit :=
  if !f.valid then
    { value := .error .future_error_no_state, state := f, calls := [] }
  else if !r.success then
    { value := .ok (), state := { f with error_ := to_uint32 r.last_error },
      calls := [.GetOverlappedResult f.fd_ f.job_] }
  else
    { value := .ok (), state := { f with result_ := to_uint32 r.bytes },
      calls := [.GetOverlappedResult f.fd_ f.job_] }

/-- The member `wait_for(rel_time)`; `rel_time` is the count of milliseconds. -/
def wait_for (w : Win32Consts) (f : Future) (rel_time : Int) (r : OverlappedReply) :
    Outcome Future future_status :=
  if !f.valid then
    { value := .error .future_error_no_state, state := f, calls := [] }
  else
    let timeout : Nat :=
      ((if rel_time < 0xFFFFFFFF then rel_time else 0xFFFFFFFF) % 2 ^ 32).toNat
    let call := Call.GetOverlappedResultEx f.fd_ f.job_ timeout
    if !r.success then
      let f := { f with error_ := to_uint32 r.last_error }
      if f.error_ == w.ERROR_IO_INCOMPLETE || f.error_ == w.WAIT_TIMEOUT then
        { value := .ok .timeout, state := f, calls := [call] }
      else
        { value := .error (.ios_failure f.error_), state := f, calls := [call] }
    else
      { value := .ok .ready, state := { f with result_ := to_uint32 r.bytes },
        calls := [call] }

/-- The member `wait_until(abs_time)`; `abs_time` and `now` (what
`system_clock::now()` returns) are counts of clock ticks, and the
`duration_cast` to milliseconds truncates. -/
def wait_until (w : Win32Consts) (f : Future) (abs_time now : Int) (r : OverlappedReply) :
    Outcome Future future_status :=
  wait_for w f (Int.tdiv (abs_time - now) w.ticks_per_ms) r

/-- The member `get()`. -/
def get (f : Future) (r : OverlappedReply) : Outcome Future Nat :=
  let w := wait f r
  match w.value with
  | .error e => { value := .error e, state := w.state, calls := w.calls }
  | .ok _ =>
    let f := { w.state with fd_ := -1 }
    let calls := w.calls ++ [.delete_job f.job_]
    let f := { f with job_ := 0 }
    if f.result_ == 0 then
      { value := .error (.ios_failure f.error_), state := f, calls := calls }
    else
      { value := .ok f.result_, state := f, calls := calls }

/-- The body of the destructor `~Future()`. It has no handler: an exception of
`get()` leaves the body, which the `.error` value records. -/
def destroy (f : Future) (r : OverlappedReply) : Outcome Future Unit :=
  if f.valid then
    let g := get f r
    { value := g.value.map (fun _ => ()), state := g.state, calls := g.calls }
  else
    { value := .ok (), state := f, calls := [] }

/-- The move assignment `operator=(Future&& x)` for `x` another object than
`*this`; the state is the pair of `*this` and `x`. The `catch (...)` drops
what `get()` throws. -/
def move_assign (self x : Future) (r : OverlappedReply) : Outcome (Future × Future) Unit :=
  let g : Outcome Future Nat :=
    if self.valid then get self r else { value := .ok 0, state := self, calls := [] }
  { value := .ok (),
    state := ({ fd_ := x.fd_, job_ := x.job_, result_ := x.result_, error_ := x.error_ },
              { fd_ := -1, job_ := 0, result_ := 0, error_ := 0 }),
    calls := g.calls }

end Future

end Win32

/-! ## AsyncFileChannel.h -/

/-- The data member of `AsyncFileChannel`; `fd_ = -1` means not open. -/
structure AsyncFileChannel where
  fd_ : Int
  deriving DecidableEq

namespace AsyncFileChannel

/-- The default constructor `AsyncFileChannel()`. -/
def default : AsyncFileChannel := { fd_ := -1 }

/-- The member `is_open()`. -/
def is_open (c : AsyncFileChannel) : Bool := c.fd_ != -1

end AsyncFileChannel

/-! ## The file behind a handle

`size()` and `resize()` only pass a length to the operating system and read
one back. What the operating system does with it is taken from the
documentation of the calls, for a handle that is open for writing on a regular
file with free space left. -/

/-- The file behind an open handle, as far as `size()` and `resize()` observe
it: its length in bytes. -/
structure NativeFile where
  st_size : Nat
  deriving DecidableEq

namespace Native

/-- The call `posix_fallocate64(fd, offset, len)` as POSIX.1 documents it: it
returns `EINVAL` when `offset` is negative or `len` is not positive; otherwise
it returns 0, and if the size of the file is less than `offset + len` the file
is increased to this size, otherwise the file size is left unchanged. -/
def posix_fallocate64 (k : PosixConsts) (file : NativeFile) (offset len : Int) :
    Int × NativeFile :=
  if offset < 0 || len ≤ 0 then ((k.EINVAL : Int), file)
  else (0, { st_size := max file.st_size (offset + len).toNat })

/-- The call `fstat64(fd, &stat)`: it returns 0 and stores the length of the
file in `st_size`. -/
def fstat64 (file : NativeFile) : Int × Int := (0, (file.st_size : Int))

/-- The call `SetFileInformationByHandle(h, FileEndOfFileInfo, ...)` as the
Windows SDK documents it: it sets the end of the file to `EndOfFile`, and
fails for a negative value. -/
def SetFileInformationByHandle (file : NativeFile) (end_of_file : Int) :
    Bool × NativeFile :=
  if end_of_file < 0 then (false, file) else (true, { st_size := end_of_file.toNat })

/-- The call `GetFileInformationByHandleEx(h, FileStandardInfo, ...)`: it
succeeds and stores the length of the file in `EndOfFile`. -/
def GetFileInformationByHandleEx (file : NativeFile) : Bool × Int :=
  (true, (file.st_size : Int))

end Native

/-! ## AsyncFileChannel.cpp, the `#else` variant -/

namespace Posix

namespace AsyncFileChannel

/-- The member `sync(meta)`; the return values of the native calls are not
looked at. -/
def sync (c : AsyncFileChannel) (meta_ : Bool) : Outcome AsyncFileChannel Unit :=
  if meta_ then { value := .ok (), state := c, calls := [.fsync c.fd_] }
  else { value := .ok (), state := c, calls := [.fdatasync c.fd_] }

/-- The member `close()`. -/
def close (c : AsyncFileChannel) : Outcome AsyncFileChannel Unit :=
  let s := sync c true
  let calls := s.calls ++ [.close s.state.fd_]
  { value := s.value, state := { s.state with fd_ := -1 }, calls := calls }

/-- The member `open(path, opt)`; `fd` is what `open64` returns and `errno`
what it leaves. -/
def open_ (k : PosixConsts) (c : AsyncFileChannel) (path : String) (opt : Nat)
    (fd : Int) (errno : Nat) : Outcome AsyncFileChannel Unit :=
  let closed : Outcome AsyncFileChannel Unit :=
    if c.is_open then close c else { value := .ok (), state := c, calls := [] }
  let flags := open_flags k opt
  let calls := closed.calls ++ [.open64 path flags]
  let c := { closed.state with fd_ := fd }
  if c.fd_ == -1 then { value := .error (.ios_failure errno), state := c, calls := calls }
  else { value := .ok (), state := c, calls := calls }

/-- The member `size()`; `errno` is what a failing `fstat64` leaves. -/
def size (c : AsyncFileChannel) (file : NativeFile) (errno : Nat) :
    Outcome (AsyncFileChannel × NativeFile) Nat :=
  let st := Native.fstat64 file
  if st.1 == -1 then
    { value := .error (.ios_failure errno), state := (c, file), calls := [.fstat64 c.fd_] }
  else
    { value := .ok (to_size_t st.2), state := (c, file), calls := [.fstat64 c.fd_] }

/-- The member `resize(len)`; `errno` is the value of `errno` at the call
(`posix_fallocate64` returns its error number and leaves `errno` alone). -/
def resize (k : PosixConsts) (c : AsyncFileChannel) (file : NativeFile) (len : Nat)
    (errno : Nat) : Outcome (AsyncFileChannel × NativeFile) Unit :=
  let r := Native.posix_fallocate64 k file 0 (to_int64 len)
  let calls := [Call.posix_fallocate64 c.fd_ 0 (to_int64 len)]
  if r.1 != 0 then
    { value := .error (.ios_failure errno), state := (c, r.2), calls := calls }
  else
    { value := .ok (), state := (c, r.2), calls := calls }

/-- The member `read(off, buf, len)`; `job` is the address of the `aiocb64`
that `new` returns. -/
def read (c : AsyncFileChannel) (off len job : Nat) : Outcome AsyncFileChannel Future :=
  { value := .ok (Future.make c.fd_ job), state := c,
    calls := [.aio_read64 c.fd_ off len job] }

/-- The member `write(off, buf, len)`; `job` is the address of the `aiocb64`
that `new` returns. -/
def write (c : AsyncFileChannel) (off len job : Nat) : Outcome AsyncFileChannel Future :=
  { value := .ok (Future.make c.fd_ job), state := c,
    calls := [.aio_write64 c.fd_ off len job] }

end AsyncFileChannel

end Posix

/-! ## AsyncFileChannel.cpp, the `_WIN32` variant -/

namespace Win32

namespace AsyncFileChannel

/-- The member `sync(meta)`; the return value of the native call is not looked
at. -/
def sync (c : AsyncFileChannel) (_meta : Bool) : Outcome AsyncFileChannel Unit :=
  { value := .ok (), state := c, calls := [.FlushFileBuffers c.fd_] }

/-- The member `close()`. -/
def close (c : AsyncFileChannel) : Outcome AsyncFileChannel Unit :=
  let s := sync c true
  let calls := s.calls ++ [.CloseHandle s.state.fd_]
  { value := s.value, state := { s.state with fd_ := -1 }, calls := calls }

/-- The member `open(path, opt)`; `fd` is what `CreateFileA` returns and
`last_error` what `GetLastError()` returns after it. -/
def open_ (w : Win32Consts) (c : AsyncFileChannel) (path : String) (opt : Nat)
    (fd : Int) (last_error : Nat) : Outcome AsyncFileChannel Unit :=
  let closed : Outcome AsyncFileChannel Unit :=
    if c.is_open then close c else { value := .ok (), state := c, calls := [] }
  let args := open_args w opt
  let calls := closed.calls ++ [.CreateFileA path args]
  let c := { closed.state with fd_ := fd }
  if c.fd_ == -1 then
    { value := .error (.ios_failure last_error), state := c, calls := calls }
  else { value := .ok (), state := c, calls := calls }

/-- The member `size()`; `last_error` is what `GetLastError()` returns after a
failing call. -/
def size (c : AsyncFileChannel) (file : NativeFile) (last_error : Nat) :
    Outcome (AsyncFileChannel × NativeFile) Nat :=
  let info := Native.GetFileInformationByHandleEx file
  if !info.1 then
    { value := .error (.ios_failure last_error), state := (c, file),
      calls := [.GetFileInformationByHandleEx c.fd_] }
  else
    { value := .ok (to_size_t info.2), state := (c, file),
      calls := [.GetFileInformationByHandleEx c.fd_] }

/-- The member `resize(len)`; `last_error` is what `GetLastError()` returns
after a failing call. -/
def resize (c : AsyncFileChannel) (file : NativeFile) (len : Nat) (last_error : Nat) :
    Outcome (AsyncFileChannel × NativeFile) Unit :=
  let r := Native.SetFileInformationByHandle file (to_int64 len)
  let calls := [Call.SetFileInformationByHandle c.fd_ (to_int64 len)]
  if !r.1 then
    { value := .error (.ios_failure last_error), state := (c, r.2), calls := calls }
  else
    { value := .ok (), state := (c, r.2), calls := calls }

/-- The member `read(off, buf, len)`; `job` is the address of the `OVERLAPPED`
that `new` returns. -/
def read (c : AsyncFileChannel) (off len job : Nat) : Outcome AsyncFileChannel Future :=
  { value := .ok (Future.make c.fd_ job), state := c,
    calls := [.ReadFile c.fd_ off len job] }

/-- The member `write(off, buf, len)`; `job` is the address of the `OVERLAPPED`
that `new` returns. -/
def write (c : AsyncFileChannel) (off len job : Nat) : Outcome AsyncFileChannel Future :=
  { value := .ok (Future.make c.fd_ job), state := c,
    calls := [.WriteFile c.fd_ off len job] }

end AsyncFileChannel

end Win32

/-! ## Bit-level lemmas -/

theorem land_lor_right (a b m : Nat) : (a ||| b) &&& m = (a &&& m) ||| (b &&& m) := by
  apply Nat.eq_of_testBit_eq
  intro i
  simp [Nat.testBit_or, Nat.testBit_and, Bool.and_or_distrib_right]

theorem lor_eq_zero (a b : Nat) : a ||| b = 0 ↔ a = 0 ∧ b = 0 := by
  constructor
  · intro h
    have hb : ∀ i, (a.testBit i || b.testBit i) = false := by
      intro i
      rw [← Nat.testBit_or, h, Nat.zero_testBit]
    constructor
    · apply Nat.eq_of_testBit_eq
      intro i
      have := hb i
      simp at this
      simp [this.1]
    · apply Nat.eq_of_testBit_eq
      intro i
      have := hb i
      simp at this
      simp [this.2]
  · rintro ⟨rfl, rfl⟩
    rfl

theorem land_lor_self_left (a m : Nat) : a &&& (a ||| m) = a := by
  apply Nat.eq_of_testBit_eq
  intro i
  simp only [Nat.testBit_or, Nat.testBit_and]
  cases a.testBit i <;> simp

theorem land_lor_self_right (a m : Nat) : a &&& (m ||| a) = a := by
  rw [Nat.or_comm]
  exact land_lor_self_left a m

set_option maxRecDepth 100000 in
/-- Adding `CREATE` to a set of options changes no other option's test. -/
theorem test_bor_CREATE : ∀ opt, opt < 256 →
    test (bor opt CREATE) WRITE = test opt WRITE ∧
    test (bor opt CREATE) APPEND = test opt APPEND ∧
    test (bor opt CREATE) OpenOption.CREATE_NEW = test opt OpenOption.CREATE_NEW ∧
    test (bor opt CREATE) TRUNCATE = test opt TRUNCATE ∧
    test (bor opt CREATE) SYNC = test opt SYNC ∧
    test (bor opt CREATE) DSYNC = test opt DSYNC ∧
    test (bor opt CREATE) DIRECT = test opt DIRECT := by
  decide

set_option maxRecDepth 100000 in
/-- Adding `DSYNC` to a set of options changes no other option's test, and sets
its own. -/
theorem test_bor_DSYNC : ∀ opt, opt < 256 →
    test (bor opt DSYNC) WRITE = test opt WRITE ∧
    test (bor opt DSYNC) APPEND = test opt APPEND ∧
    test (bor opt DSYNC) CREATE = test opt CREATE ∧
    test (bor opt DSYNC) OpenOption.CREATE_NEW = test opt OpenOption.CREATE_NEW ∧
    test (bor opt DSYNC) TRUNCATE = test opt TRUNCATE ∧
    test (bor opt DSYNC) SYNC = test opt SYNC ∧
    test (bor opt DSYNC) DIRECT = test opt DIRECT ∧
    test (bor opt DSYNC) DSYNC = true := by
  decide

/-- Each constant that `creation_separate` lists is disjoint from the mask. -/
theorem PosixConsts.creation_separate_each (k : PosixConsts) (hk : k.creation_separate) :
    k.O_RDONLY &&& k.creation_mask = 0 ∧ k.O_RDWR &&& k.creation_mask = 0 ∧
    k.O_APPEND &&& k.creation_mask = 0 ∧ k.O_SYNC &&& k.creation_mask = 0 ∧
    k.O_DSYNC &&& k.creation_mask = 0 ∧ k.O_DIRECT &&& k.creation_mask = 0 := by
  unfold PosixConsts.creation_separate at hk
  simp only [land_lor_right, lor_eq_zero] at hk
  tauto

/-- Each creation bit lies inside the mask. -/
theorem PosixConsts.creation_mask_each (k : PosixConsts) :
    k.O_CREAT &&& k.creation_mask = k.O_CREAT ∧ k.O_EXCL &&& k.creation_mask = k.O_EXCL ∧
    k.O_TRUNC &&& k.creation_mask = k.O_TRUNC := by
  unfold PosixConsts.creation_mask
  refine ⟨?_, ?_, ?_⟩
  · rw [Nat.or_assoc]
    exact land_lor_self_left _ _
  · rw [Nat.or_comm k.O_CREAT, Nat.or_assoc]
    exact land_lor_self_left _ _
  · exact land_lor_self_right _ _

/-! ## The claims -/

/-- C1. For every `uint8_t` option mask, and constants whose creation bits are
separate from the others, the creation/truncation part of the POSIX flag word
and the Windows creation disposition follow the first matching rule of:
`CREATE_NEW` gives exclusive-create; `CREATE`, `TRUNCATE` and `WRITE` together
give create-or-truncate; `CREATE` gives create-or-open; `TRUNCATE` and `WRITE`
without `CREATE` give truncate-existing; anything else gives open-existing.
Both variants select the same rule, and with `CREATE_NEW` set, adding `CREATE`
changes nothing of what `open()` computes. -/
theorem open_creation_precedence (k : PosixConsts) (w : Win32Consts) (opt : Nat)
    (hopt : opt < 256) (hk : k.creation_separate) :
    (test opt OpenOption.CREATE_NEW = true →
      Posix.open_flags k opt &&& k.creation_mask = k.O_CREAT ||| k.O_EXCL ∧
      (Win32.open_args w opt).creation_disposition = w.CREATE_NEW) ∧
    (test opt OpenOption.CREATE_NEW = false → test opt CREATE = true →
      test opt TRUNCATE = true → test opt WRITE = true →
      Posix.open_flags k opt &&& k.creation_mask = k.O_CREAT ||| k.O_TRUNC ∧
      (Win32.open_args w opt).creation_disposition = w.CREATE_ALWAYS) ∧
    (test opt OpenOption.CREATE_NEW = false → test opt CREATE = true →
      ¬ (test opt TRUNCATE = true ∧ test opt WRITE = true) →
      Posix.open_flags k opt &&& k.creation_mask = k.O_CREAT ∧
      (Win32.open_args w opt).creation_disposition = w.OPEN_ALWAYS) ∧
    (test opt OpenOption.CREATE_NEW = false → test opt CREATE = false →
      test opt TRUNCATE = true → test opt WRITE = true →
      Posix.open_flags k opt &&& k.creation_mask = k.O_TRUNC ∧
      (Win32.open_args w opt).creation_disposition = w.TRUNCATE_EXISTING) ∧
    (test opt OpenOption.CREATE_NEW = false → test opt CREATE = false →
      ¬ (test opt TRUNCATE = true ∧ test opt WRITE = true) →
      Posix.open_flags k opt &&& k.creation_mask = 0 ∧
      (Win32.open_args w opt).creation_disposition = w.OPEN_EXISTING) ∧
    (test opt OpenOption.CREATE_NEW = true →
      Posix.open_flags k (bor opt CREATE) = Posix.open_flags k opt ∧
      Win32.open_args w (bor opt CREATE) = Win32.open_args w opt) := by
  obtain ⟨h1, h2, h3, h4, h5, h6⟩ := k.creation_separate_each hk
  obtain ⟨m1, m2, m3⟩ := k.creation_mask_each
  obtain ⟨t1, t2, t3, t4, t5, t6, t7⟩ := test_bor_CREATE opt hopt
  refine ⟨?_, ?_, ?_, ?_, ?_, ?_⟩
  · intro hn
    constructor
    · simp only [Posix.open_flags, hn]
      cases test opt WRITE <;> cases test opt APPEND <;> cases test opt SYNC <;>
        cases test opt DSYNC <;> cases test opt DIRECT <;>
        simp [land_lor_right, h1, h2, h3, h4, h5, h6, m1, m2]
    · simp [Win32.open_args, hn]
  · intro hn hc ht hw
    constructor
    · simp only [Posix.open_flags, hn, hc, ht, hw]
      cases test opt APPEND <;> cases test opt SYNC <;>
        cases test opt DSYNC <;> cases test opt DIRECT <;>
        simp [land_lor_right, h1, h2, h3, h4, h5, h6, m1, m3]
    · simp [Win32.open_args, hn, hc, ht, hw]
  · intro hn hc htw
    have htw2 : (test opt TRUNCATE && test opt WRITE) = false := by
      cases hT : test opt TRUNCATE <;> cases hW : test opt WRITE <;> simp_all
    constructor
    · simp only [Posix.open_flags, hn, hc, Bool.and_assoc, htw2]
      cases test opt WRITE <;> cases test opt APPEND <;> cases test opt SYNC <;>
        cases test opt DSYNC <;> cases test opt DIRECT <;>
        simp [land_lor_right, h1, h2, h3, h4, h5, h6, m1]
    · simp [Win32.open_args, hn, hc, Bool.and_assoc, htw2]
  · intro hn hc ht hw
    constructor
    · simp only [Posix.open_flags, hn, hc, ht, hw]
      cases test opt APPEND <;> cases test opt SYNC <;>
        cases test opt DSYNC <;> cases test opt DIRECT <;>
        simp [land_lor_right, h1, h2, h3, h4, h5, h6, m3]
    · simp [Win32.open_args, hn, hc, ht, hw]
  · intro hn hc htw
    have htw2 : (test opt TRUNCATE && test opt WRITE) = false := by
      cases hT : test opt TRUNCATE <;> cases hW : test opt WRITE <;> simp_all
    constructor
    · simp only [Posix.open_flags, hn, hc, Bool.and_assoc, htw2]
      cases test opt WRITE <;> cases test opt APPEND <;> cases test opt SYNC <;>
        cases test opt DSYNC <;> cases test opt DIRECT <;>
        simp [land_lor_right, h1, h2, h3, h4, h5, h6]
    · simp [Win32.open_args, hn, hc, Bool.and_assoc, htw2]
  · intro hn
    constructor
    · simp [Posix.open_flags, t1, t2, t3, t4, t5, t6, t7, hn]
    · simp [Win32.open_args, t1, t2, t3, t4, t5, t6, t7, hn]

/-- C1 at the Linux and Windows SDK constants, for `WRITE | CREATE | TRUNCATE`. -/
theorem open_creation_precedence_witness :
    (21 < 256 ∧ linuxConsts.creation_separate) ∧
    Posix.open_flags linuxConsts 21 &&& linuxConsts.creation_mask
      = linuxConsts.O_CREAT ||| linuxConsts.O_TRUNC ∧
    (Win32.open_args sdkConsts 21).creation_disposition = sdkConsts.CREATE_ALWAYS :=
  ⟨⟨by decide, by decide⟩,
   (open_creation_precedence linuxConsts sdkConsts 21 (by decide) (by decide)).2.1
     (by decide) (by decide) (by decide) (by decide)⟩

/-- Each constant that `sync_separate` lists is disjoint from the two
synchronisation constants. -/
theorem PosixConsts.sync_separate_each (k : PosixConsts) (hk : k.sync_separate) :
    k.O_RDONLY &&& (k.O_SYNC ||| k.O_DSYNC) = 0 ∧ k.O_RDWR &&& (k.O_SYNC ||| k.O_DSYNC) = 0 ∧
    k.O_APPEND &&& (k.O_SYNC ||| k.O_DSYNC) = 0 ∧ k.O_CREAT &&& (k.O_SYNC ||| k.O_DSYNC) = 0 ∧
    k.O_EXCL &&& (k.O_SYNC ||| k.O_DSYNC) = 0 ∧ k.O_TRUNC &&& (k.O_SYNC ||| k.O_DSYNC) = 0 ∧
    k.O_DIRECT &&& (k.O_SYNC ||| k.O_DSYNC) = 0 := by
  unfold PosixConsts.sync_separate at hk
  simp only [land_lor_right, lor_eq_zero] at hk
  tauto

/-- C10. For every `uint8_t` option mask that contains `SYNC`, adding `DSYNC`
changes nothing of what `open()` computes, in either variant; the POSIX flag
word then holds `O_SYNC`, and its synchronisation part is `O_SYNC` alone. For a
mask with neither `SYNC` nor `DSYNC`, the POSIX flag word holds no bit of
`O_SYNC` or `O_DSYNC` and the Windows flag word none of
`FILE_FLAG_WRITE_THROUGH` (the other constants being separate from these). -/
theorem dsync_ignored_with_sync (k : PosixConsts) (w : Win32Consts) (opt : Nat)
    (hopt : opt < 256) (hk : k.sync_separate) (hw : w.sync_separate) :
    (test opt SYNC = true →
      Posix.open_flags k (bor opt DSYNC) = Posix.open_flags k opt ∧
      Posix.open_flags k opt &&& k.O_SYNC = k.O_SYNC ∧
      Posix.open_flags k opt &&& (k.O_SYNC ||| k.O_DSYNC) = k.O_SYNC ∧
      Win32.open_args w (bor opt DSYNC) = Win32.open_args w opt) ∧
    (test opt SYNC = false → test opt DSYNC = false →
      Posix.open_flags k opt &&& (k.O_SYNC ||| k.O_DSYNC) = 0 ∧
      (Win32.open_args w opt).flags &&& w.FILE_FLAG_WRITE_THROUGH = 0) := by
  obtain ⟨h1, h2, h3, h4, h5, h6, h7⟩ := k.sync_separate_each hk
  obtain ⟨t1, t2, t3, t4, t5, t6, t7, t8⟩ := test_bor_DSYNC opt hopt
  unfold Win32Consts.sync_separate at hw
  simp only [land_lor_right, lor_eq_zero] at hw
  obtain ⟨w1, w2⟩ := hw
  have s1 : k.O_SYNC &&& (k.O_SYNC ||| k.O_DSYNC) = k.O_SYNC := land_lor_self_left _ _
  have s2 : ∀ x : Nat, (x ||| k.O_SYNC) &&& k.O_SYNC = k.O_SYNC := by
    intro x
    rw [Nat.and_comm]
    exact land_lor_self_right _ _
  have s3 : ∀ x : Nat, (x ||| k.O_SYNC ||| k.O_DIRECT) &&& k.O_SYNC = k.O_SYNC := by
    intro x
    rw [Nat.or_assoc, Nat.or_comm, Nat.or_assoc, Nat.and_comm]
    exact land_lor_self_left _ _
  refine ⟨?_, ?_⟩
  · intro hs
    refine ⟨?_, ?_, ?_, ?_⟩
    · simp [Posix.open_flags, t1, t2, t3, t4, t5, t6, t7, t8, hs]
    · simp only [Posix.open_flags, hs]
      cases test opt DIRECT <;> simp [s2, s3]
    · simp only [Posix.open_flags, hs]
      cases test opt WRITE <;> cases test opt APPEND <;>
        cases test opt OpenOption.CREATE_NEW <;> cases test opt CREATE <;>
        cases test opt TRUNCATE <;> cases test opt DIRECT <;>
        simp [land_lor_right, h1, h2, h3, h4, h5, h6, h7, s1]
    · simp [Win32.open_args, t1, t2, t3, t4, t5, t6, t7, t8, hs]
  · intro hs hd
    constructor
    · simp only [Posix.open_flags, hs, hd]
      cases test opt WRITE <;> cases test opt APPEND <;>
        cases test opt OpenOption.CREATE_NEW <;> cases test opt CREATE <;>
        cases test opt TRUNCATE <;> cases test opt DIRECT <;>
        simp [land_lor_right, h1, h2, h3, h4, h5, h6, h7]
    · simp only [Win32.open_args, hs, hd]
      cases test opt DIRECT <;> simp [land_lor_right, w1, w2]

/-- C10 at the Linux and Windows SDK constants, for `WRITE | SYNC`. -/
theorem dsync_ignored_with_sync_witness :
    (33 < 256 ∧ linuxConsts.sync_separate ∧ sdkConsts.sync_separate) ∧
    Posix.open_flags linuxConsts (bor 33 DSYNC) = Posix.open_flags linuxConsts 33 ∧
    Posix.open_flags linuxConsts 33 &&& linuxConsts.O_SYNC = linuxConsts.O_SYNC ∧
    Posix.open_flags linuxConsts 33 &&& (linuxConsts.O_SYNC ||| linuxConsts.O_DSYNC)
      = linuxConsts.O_SYNC ∧
    Win32.open_args sdkConsts (bor 33 DSYNC) = Win32.open_args sdkConsts 33 :=
  ⟨⟨by decide, by decide, by decide⟩,
   (dsync_ignored_with_sync linuxConsts sdkConsts 33 (by decide) (by decide) (by decide)).1
     (by decide)⟩

/-- C8. On an invalid handle (null job pointer), each of `wait()`,
`wait_for(d)`, `wait_until(t)` and `get()` throws
`future_error(no_state)`, which is another exception than the I/O failure,
makes no native call, and leaves every field of the handle as it was, in both
variants; the default-constructed handle is such a handle. -/
theorem invalid_handle_usage_error (k : PosixConsts) (w : Win32Consts) (f : Future)
    (hf : f.valid = false) (rel_time abs_time now : Int)
    (rp : Posix.AioReply) (rw : Win32.OverlappedReply) :
    Posix.Future.wait f rp
      = { value := .error .future_error_no_state, state := f, calls := [] } ∧
    Posix.Future.wait_for k f rel_time rp
      = { value := .error .future_error_no_state, state := f, calls := [] } ∧
    Posix.Future.wait_until k f abs_time now rp
      = { value := .error .future_error_no_state, state := f, calls := [] } ∧
    Posix.Future.get f rp
      = { value := .error .future_error_no_state, state := f, calls := [] } ∧
    Win32.Future.wait f rw
      = { value := .error .future_error_no_state, state := f, calls := [] } ∧
    Win32.Future.wait_for w f rel_time rw
      = { value := .error .future_error_no_state, state := f, calls := [] } ∧
    Win32.Future.wait_until w f abs_time now rw
      = { value := .error .future_error_no_state, state := f, calls := [] } ∧
    Win32.Future.get f rw
      = { value := .error .future_error_no_state, state := f, calls := [] } ∧
    (∀ code, Exn.future_error_no_state ≠ Exn.ios_failure code) ∧
    Future.default.valid = false := by
  refine ⟨?_, ?_, ?_, ?_, ?_, ?_, ?_, ?_, ?_, ?_⟩
  · simp [Posix.Future.wait, hf]
  · simp [Posix.Future.wait_for, hf]
  · simp [Posix.Future.wait_until, Posix.Future.wait_for, hf]
  · simp [Posix.Future.get, Posix.Future.wait, hf]
  · simp [Win32.Future.wait, hf]
  · simp [Win32.Future.wait_for, hf]
  · simp [Win32.Future.wait_until, Win32.Future.wait_for, hf]
  · simp [Win32.Future.get, Win32.Future.wait, hf]
  · intro code h
    cases h
  · rfl

/-- C8 at the handle a `get()` has consumed. -/
theorem invalid_handle_usage_error_witness :
    ({ fd_ := -1, job_ := 0, result_ := 10, error_ := 0 } : Future).valid = false ∧
    Posix.Future.wait { fd_ := -1, job_ := 0, result_ := 10, error_ := 0 }
        { suspend := 0, errno := 0, ret := 10 }
      = { value := .error .future_error_no_state,
          state := { fd_ := -1, job_ := 0, result_ := 10, error_ := 0 }, calls := [] } :=
  ⟨by decide,
   (invalid_handle_usage_error linuxConsts sdkConsts
      { fd_ := -1, job_ := 0, result_ := 10, error_ := 0 } (by decide) 0 0 0
      { suspend := 0, errno := 0, ret := 10 }
      { success := true, bytes := 10, last_error := 0 }).1⟩

/-- C3. A `get()` on a valid handle, whatever the native layer answers and
whether it returns a count or throws, throws no usage error, leaves the handle
invalid with a null job pointer, and deletes the job structure exactly once;
every further `get()` throws `future_error(no_state)`, leaves the handle as it
is and makes no native call, so deletes nothing again. Both variants. -/
theorem get_exactly_once (f : Future) (hf : f.valid = true)
    (rp rp2 : Posix.AioReply) (rw rw2 : Win32.OverlappedReply) :
    ((Posix.Future.get f rp).value ≠ .error .future_error_no_state ∧
     (Posix.Future.get f rp).state.valid = false ∧
     (Posix.Future.get f rp).state.job_ = 0 ∧
     (Posix.Future.get f rp).calls.count (.delete_job f.job_) = 1 ∧
     (∀ j, Call.delete_job j ∈ (Posix.Future.get f rp).calls → j = f.job_) ∧
     Posix.Future.get (Posix.Future.get f rp).state rp2
       = { value := .error .future_error_no_state, state := (Posix.Future.get f rp).state,
           calls := [] }) ∧
    ((Win32.Future.get f rw).value ≠ .error .future_error_no_state ∧
     (Win32.Future.get f rw).state.valid = false ∧
     (Win32.Future.get f rw).state.job_ = 0 ∧
     (Win32.Future.get f rw).calls.count (.delete_job f.job_) = 1 ∧
     (∀ j, Call.delete_job j ∈ (Win32.Future.get f rw).calls → j = f.job_) ∧
     Win32.Future.get (Win32.Future.get f rw).state rw2
       = { value := .error .future_error_no_state, state := (Win32.Future.get f rw).state,
           calls := [] }) := by
  have hj : f.job_ ≠ 0 := by simpa [Future.valid] using hf
  constructor
  · by_cases hs : rp.suspend = 0 <;> by_cases hr : to_size_t rp.ret = 0 <;>
      by_cases hres : f.result_ = 0 <;>
      simp [Posix.Future.get, Posix.Future.wait, Future.valid, hj, hs, hr, hres,
        List.count_cons]
  · cases hs : rw.success <;> by_cases hr : to_uint32 rw.bytes = 0 <;>
      by_cases hres : f.result_ = 0 <;>
      simp [Win32.Future.get, Win32.Future.wait, Future.valid, hj, hs, hr, hres,
        List.count_cons]

/-- C3 at a handle as `read` returns it, with a completion of 10 bytes. -/
theorem get_exactly_once_witness :
    (Future.make 3 1).valid = true ∧
    (Posix.Future.get (Future.make 3 1) { suspend := 0, errno := 0, ret := 10 }).state.valid
      = false :=
  ⟨by decide,
   (get_exactly_once (Future.make 3 1) (by decide)
      { suspend := 0, errno := 0, ret := 10 } { suspend := 0, errno := 0, ret := 10 }
      { success := true, bytes := 10, last_error := 0 }
      { success := true, bytes := 10, last_error := 0 }).1.2.1⟩

/-- C2, the code at the failing inputs. A handle whose operation completed
successfully with zero bytes: `get()` throws an I/O failure built from the
cached error code 0, in both variants. A POSIX handle whose operation completed
with an error (`aio_suspend64` returns 0, `aio_return64` returns -1): `get()`
returns the count `2^64 - 1` and throws nothing. -/
theorem get_zero_bytes_throws :
    (Posix.Future.get (Future.make 3 1) { suspend := 0, errno := 0, ret := 0 }).value
      = .error (.ios_failure 0) ∧
    (Win32.Future.get (Future.make 3 1) { success := true, bytes := 0, last_error := 0 }).value
      = .error (.ios_failure 0) ∧
    (Posix.Future.get (Future.make 3 1) { suspend := 0, errno := 5, ret := -1 }).value
      = .ok (2 ^ 64 - 1) := by
  refine ⟨?_, ?_, ?_⟩ <;> rfl

/-- C4, the code at the failing inputs. The body of the destructor has no
handler, so what `get()` throws leaves it: for a Windows handle whose
operation failed with code 5, and for a POSIX handle whose operation
transferred zero bytes. The move assignment, which wraps the same `get()` in
`try`/`catch (...)`, ends normally on the same handle. -/
theorem destructor_lets_failure_escape :
    (Win32.Future.destroy (Future.make 3 1)
        { success := false, bytes := 0, last_error := 5 }).value
      = .error (.ios_failure 5) ∧
    (Posix.Future.destroy (Future.make 3 1) { suspend := 0, errno := 0, ret := 0 }).value
      = .error (.ios_failure 0) ∧
    (Win32.Future.move_assign (Future.make 3 1) Future.default
        { success := false, bytes := 0, last_error := 5 }).value
      = .ok () := by
  refine ⟨?_, ?_, ?_⟩ <;> rfl

/-- C6, the code at the failing input. On a file of 10 bytes, the POSIX
`resize(4)` succeeds and the following `size()` returns 10; the Windows
`resize(4)` succeeds and the following `size()` returns 4. -/
theorem posix_resize_does_not_shrink :
    (Posix.AsyncFileChannel.resize linuxConsts { fd_ := 3 } { st_size := 10 } 4 0).value
      = .ok () ∧
    (Posix.AsyncFileChannel.size { fd_ := 3 }
        (Posix.AsyncFileChannel.resize linuxConsts { fd_ := 3 } { st_size := 10 } 4 0).state.2
        0).value
      = .ok 10 ∧
    (Win32.AsyncFileChannel.resize { fd_ := 3 } { st_size := 10 } 4 0).value = .ok () ∧
    (Win32.AsyncFileChannel.size { fd_ := 3 }
        (Win32.AsyncFileChannel.resize { fd_ := 3 } { st_size := 10 } 4 0).state.2 0).value
      = .ok 4 := by
  refine ⟨?_, ?_, ?_, ?_⟩ <;> rfl

/-- C9 as stated fails: `close()` on a channel that is not open still issues
the native flush and the native release, on the handle value -1. -/
theorem close_on_closed_issues_calls :
    (Posix.AsyncFileChannel.close AsyncFileChannel.default).calls
      = [.fsync (-1), .close (-1)] ∧
    (Win32.AsyncFileChannel.close AsyncFileChannel.default).calls
      = [.FlushFileBuffers (-1), .CloseHandle (-1)] ∧
    (Posix.AsyncFileChannel.close AsyncFileChannel.default).calls ≠ [] ∧
    (Win32.AsyncFileChannel.close AsyncFileChannel.default).calls ≠ [] := by
  refine ⟨rfl, rfl, ?_, ?_⟩ <;> simp [Posix.AsyncFileChannel.close, Win32.AsyncFileChannel.close,
    Posix.AsyncFileChannel.sync, Win32.AsyncFileChannel.sync]

/-- C9 as amended. `close()` throws nothing and leaves the channel not open,
and a second `close()` leaves the channel as the first left it; every
`close()` issues the native flush and the native release on the handle value
it finds, also on a channel that is not open, whose state it leaves as it
was. Both variants. -/
theorem close_leaves_not_open (c : AsyncFileChannel) :
    ((Posix.AsyncFileChannel.close c).value = .ok () ∧
     (Posix.AsyncFileChannel.close c).state.is_open = false ∧
     (Posix.AsyncFileChannel.close (Posix.AsyncFileChannel.close c).state).state
       = (Posix.AsyncFileChannel.close c).state ∧
     (Posix.AsyncFileChannel.close c).calls = [.fsync c.fd_, .close c.fd_] ∧
     (Posix.AsyncFileChannel.close AsyncFileChannel.default).state
       = AsyncFileChannel.default) ∧
    ((Win32.AsyncFileChannel.close c).value = .ok () ∧
     (Win32.AsyncFileChannel.close c).state.is_open = false ∧
     (Win32.AsyncFileChannel.close (Win32.AsyncFileChannel.close c).state).state
       = (Win32.AsyncFileChannel.close c).state ∧
     (Win32.AsyncFileChannel.close c).calls = [.FlushFileBuffers c.fd_, .CloseHandle c.fd_] ∧
     (Win32.AsyncFileChannel.close AsyncFileChannel.default).state
       = AsyncFileChannel.default) := by
  refine ⟨⟨?_, ?_, ?_, ?_, ?_⟩, ⟨?_, ?_, ?_, ?_, ?_⟩⟩ <;>
    simp [Posix.AsyncFileChannel.close, Win32.AsyncFileChannel.close,
      Posix.AsyncFileChannel.sync, Win32.AsyncFileChannel.sync,
      AsyncFileChannel.is_open, AsyncFileChannel.default]

theorem to_size_t_of_lt (n : Nat) (h : n < 2 ^ 64) : to_size_t (n : Int) = n := by
  unfold to_size_t
  norm_num at h ⊢
  omega

theorem to_uint32_of_lt (n : Nat) (h : n < 2 ^ 32) : to_uint32 n = n := by
  unfold to_uint32
  exact Nat.mod_eq_of_lt h

/-- C5 as stated fails: a `wait_for` of zero milliseconds on a pending handle
whose native wait times out returns `timeout`, but the cached error code, 0
before the call, is the code of the timeout after it; a later `get()` that
observes a completion of zero bytes then throws an I/O failure with that
code. Both variants. -/
theorem wait_for_timeout_overwrites_error :
    ((Posix.Future.wait_for linuxConsts (Future.make 3 1) 0
        { suspend := -1, errno := 11, ret := 0 }).value = .ok .timeout ∧
     (Future.make 3 1).error_ = 0 ∧
     (Posix.Future.wait_for linuxConsts (Future.make 3 1) 0
        { suspend := -1, errno := 11, ret := 0 }).state.error_ = 11 ∧
     (Posix.Future.get
        (Posix.Future.wait_for linuxConsts (Future.make 3 1) 0
          { suspend := -1, errno := 11, ret := 0 }).state
        { suspend := 0, errno := 0, ret := 0 }).value = .error (.ios_failure 11)) ∧
    ((Win32.Future.wait_for sdkConsts (Future.make 3 1) 0
        { success := false, bytes := 0, last_error := 258 }).value = .ok .timeout ∧
     (Win32.Future.wait_for sdkConsts (Future.make 3 1) 0
        { success := false, bytes := 0, last_error := 258 }).state.error_ = 258 ∧
     (Win32.Future.get
        (Win32.Future.wait_for sdkConsts (Future.make 3 1) 0
          { success := false, bytes := 0, last_error := 258 }).state
        { success := true, bytes := 0, last_error := 0 }).value
       = .error (.ios_failure 258)) := by
  refine ⟨⟨?_, ?_, ?_, ?_⟩, ⟨?_, ?_, ?_⟩⟩ <;> rfl

/-- C5 as amended. On a valid handle, a `wait_for` (of any duration) whose
native wait reports the timeout returns `timeout` and throws nothing; the
handle stays valid, with its file handle, job pointer and cached byte count as
they were, and its cached error code set to the native code of the timeout. A
later `get()` that observes a completion of `n > 0` bytes returns `n`; on
Windows a later `get()` on a handle with no cached count that observes a
failure throws the I/O failure of that failure's code. Both variants. -/
theorem wait_for_timeout_keeps_pending (k : PosixConsts) (w : Win32Consts) (f : Future)
    (hf : f.valid = true) (rel_time : Int)
    (rp : Posix.AioReply) (hp : rp.suspend ≠ 0) (hpe : to_uint32 rp.errno = k.EAGAIN)
    (rw : Win32.OverlappedReply) (hw : rw.success = false)
    (hwe : to_uint32 rw.last_error = w.ERROR_IO_INCOMPLETE ∨
      to_uint32 rw.last_error = w.WAIT_TIMEOUT)
    (n : Nat) (hn : 0 < n) (hn64 : n < 2 ^ 64) (m : Nat) (hm : 0 < m) (hm32 : m < 2 ^ 32) :
    ((Posix.Future.wait_for k f rel_time rp).value = .ok .timeout ∧
     (Posix.Future.wait_for k f rel_time rp).state = { f with error_ := k.EAGAIN } ∧
     (Posix.Future.wait_for k f rel_time rp).state.valid = true ∧
     (∀ e, (Posix.Future.get (Posix.Future.wait_for k f rel_time rp).state
        { suspend := 0, errno := e, ret := (n : Int) }).value = .ok n)) ∧
    ((Win32.Future.wait_for w f rel_time rw).value = .ok .timeout ∧
     (Win32.Future.wait_for w f rel_time rw).state
       = { f with error_ := to_uint32 rw.last_error } ∧
     (Win32.Future.wait_for w f rel_time rw).state.valid = true ∧
     (∀ e, (Win32.Future.get (Win32.Future.wait_for w f rel_time rw).state
        { success := true, bytes := m, last_error := e }).value = .ok m) ∧
     (f.result_ = 0 → ∀ e, (Win32.Future.get (Win32.Future.wait_for w f rel_time rw).state
        { success := false, bytes := 0, last_error := e }).value
          = .error (.ios_failure (to_uint32 e)))) := by
  have hj : f.job_ ≠ 0 := by simpa [Future.valid] using hf
  have hn0 : n ≠ 0 := Nat.pos_iff_ne_zero.mp hn
  have hm0 : m ≠ 0 := Nat.pos_iff_ne_zero.mp hm
  have hnn := to_size_t_of_lt n hn64
  have hmm := to_uint32_of_lt m hm32
  constructor
  · simp [Posix.Future.wait_for, Posix.Future.get, Posix.Future.wait, Future.valid, hj, hp,
      hpe, hnn, hn0]
  · have hor : (to_uint32 rw.last_error == w.ERROR_IO_INCOMPLETE ||
        to_uint32 rw.last_error == w.WAIT_TIMEOUT) = true := by
      rcases hwe with h | h <;> simp [h]
    refine ⟨?_, ?_, ?_, ?_, ?_⟩
    · simp only [Win32.Future.wait_for, Future.valid, hw]
      simp [hj, hor]
    · simp only [Win32.Future.wait_for, Future.valid, hw]
      simp [hj, hor]
    · simp only [Win32.Future.wait_for, Future.valid, hw]
      simp [hj, hor]
    · intro e
      simp only [Win32.Future.wait_for, Future.valid, hw]
      simp [hj, hor, Win32.Future.get, Win32.Future.wait, Future.valid, hmm, hm0]
    · intro hres e
      simp only [Win32.Future.wait_for, Future.valid, hw]
      simp [hj, hor, Win32.Future.get, Win32.Future.wait, Future.valid, hres]

/-- C5 as amended, at a pending handle and a zero duration. -/
theorem wait_for_timeout_keeps_pending_witness :
    ((Future.make 3 1).valid = true ∧ (-1 : Int) ≠ 0 ∧ to_uint32 11 = linuxConsts.EAGAIN ∧
      false = false ∧
      (to_uint32 258 = sdkConsts.ERROR_IO_INCOMPLETE ∨ to_uint32 258 = sdkConsts.WAIT_TIMEOUT) ∧
      0 < 10 ∧ 10 < 2 ^ 64 ∧ 0 < 10 ∧ 10 < 2 ^ 32) ∧
    (Posix.Future.wait_for linuxConsts (Future.make 3 1) 0
        { suspend := -1, errno := 11, ret := 0 }).value = .ok .timeout :=
  ⟨⟨by decide, by decide, by decide, rfl, Or.inr (by decide), by decide, by decide, by decide,
    by decide⟩,
   (wait_for_timeout_keeps_pending linuxConsts sdkConsts (Future.make 3 1) (by decide) 0
      { suspend := -1, errno := 11, ret := 0 } (by decide) (by decide)
      { success := false, bytes := 0, last_error := 258 } rfl (Or.inr (by decide))
      10 (by decide) (by decide) 10 (by decide) (by decide)).1.1⟩

/-- C7 as stated fails: on a handle whose first `wait()` cached a completion
of 5 bytes, a further `wait()` issues the native wait and collects the native
result again, and so does the following `get()` before it deletes the job
structure and returns 5. Both variants. -/
theorem wait_again_calls_native :
    ((Posix.Future.wait (Future.make 3 1) { suspend := 0, errno := 0, ret := 5 }).state
       = { fd_ := 3, job_ := 1, result_ := 5, error_ := 0 } ∧
     (Posix.Future.wait { fd_ := 3, job_ := 1, result_ := 5, error_ := 0 }
        { suspend := 0, errno := 0, ret := 5 }).calls
       = [.aio_suspend64 1 none, .aio_return64 1] ∧
     (Posix.Future.get { fd_ := 3, job_ := 1, result_ := 5, error_ := 0 }
        { suspend := 0, errno := 0, ret := 5 }).value = .ok 5 ∧
     (Posix.Future.get { fd_ := 3, job_ := 1, result_ := 5, error_ := 0 }
        { suspend := 0, errno := 0, ret := 5 }).calls
       = [.aio_suspend64 1 none, .aio_return64 1, .delete_job 1]) ∧
    ((Win32.Future.wait (Future.make 3 1) { success := true, bytes := 5, last_error := 0 }).state
       = { fd_ := 3, job_ := 1, result_ := 5, error_ := 0 } ∧
     (Win32.Future.wait { fd_ := 3, job_ := 1, result_ := 5, error_ := 0 }
        { success := true, bytes := 5, last_error := 0 }).calls
       = [.GetOverlappedResult 3 1] ∧
     (Win32.Future.get { fd_ := 3, job_ := 1, result_ := 5, error_ := 0 }
        { success := true, bytes := 5, last_error := 0 }).value = .ok 5 ∧
     (Win32.Future.get { fd_ := 3, job_ := 1, result_ := 5, error_ := 0 }
        { success := true, bytes := 5, last_error := 0 }).calls
       = [.GetOverlappedResult 3 1, .delete_job 1]) := by
  refine ⟨⟨?_, ?_, ?_, ?_⟩, ⟨?_, ?_, ?_, ?_⟩⟩ <;> rfl

/-- C7 as amended. On a valid handle, once a `wait()` (or a `wait_for` that
returned `ready`, which leaves the same state) has observed completion, a
further `wait()` issues the native wait and collects the native result again;
when the native layer answers as before, the handle is left exactly as it was,
cached byte count and cached error code included. A following `get()` issues
the native wait and collects the native result once more and, when the native
layer answers as before with a byte count that is not zero, returns that
cached byte count. Both variants. -/
theorem wait_again_same_answer (k : PosixConsts) (w : Win32Consts) (f : Future)
    (hf : f.valid = true) (rel_time : Int)
    (rp : Posix.AioReply) (hp : rp.suspend = 0)
    (rw : Win32.OverlappedReply) (hw : rw.success = true) :
    ((Posix.Future.wait f rp).state.result_ = to_size_t rp.ret ∧
     (Posix.Future.wait f rp).state.error_ = f.error_ ∧
     (Posix.Future.wait_for k f rel_time rp).value = .ok .ready ∧
     (Posix.Future.wait_for k f rel_time rp).state = (Posix.Future.wait f rp).state ∧
     Posix.Future.wait (Posix.Future.wait f rp).state rp
       = { value := .ok (), state := (Posix.Future.wait f rp).state,
           calls := [.aio_suspend64 f.job_ none, .aio_return64 f.job_] } ∧
     (to_size_t rp.ret ≠ 0 →
       Posix.Future.get (Posix.Future.wait f rp).state rp
         = { value := .ok (Posix.Future.wait f rp).state.result_,
             state := { fd_ := -1, job_ := 0, result_ := to_size_t rp.ret,
                        error_ := f.error_ },
             calls := [.aio_suspend64 f.job_ none, .aio_return64 f.job_,
                       .delete_job f.job_] })) ∧
    ((Win32.Future.wait f rw).state.result_ = to_uint32 rw.bytes ∧
     (Win32.Future.wait f rw).state.error_ = f.error_ ∧
     (Win32.Future.wait_for w f rel_time rw).value = .ok .ready ∧
     (Win32.Future.wait_for w f rel_time rw).state = (Win32.Future.wait f rw).state ∧
     Win32.Future.wait (Win32.Future.wait f rw).state rw
       = { value := .ok (), state := (Win32.Future.wait f rw).state,
           calls := [.GetOverlappedResult f.fd_ f.job_] } ∧
     (to_uint32 rw.bytes ≠ 0 →
       Win32.Future.get (Win32.Future.wait f rw).state rw
         = { value := .ok (Win32.Future.wait f rw).state.result_,
             state := { fd_ := -1, job_ := 0, result_ := to_uint32 rw.bytes,
                        error_ := f.error_ },
             calls := [.GetOverlappedResult f.fd_ f.job_, .delete_job f.job_] })) := by
  have hj : f.job_ ≠ 0 := by simpa [Future.valid] using hf
  constructor
  · refine ⟨?_, ?_, ?_, ?_, ?_, ?_⟩
    · simp [Posix.Future.wait, Future.valid, hj, hp]
    · simp [Posix.Future.wait, Future.valid, hj, hp]
    · simp [Posix.Future.wait_for, Future.valid, hj, hp]
    · simp [Posix.Future.wait_for, Posix.Future.wait, Future.valid, hj, hp]
    · simp [Posix.Future.wait, Future.valid, hj, hp]
    · intro hr
      simp [Posix.Future.get, Posix.Future.wait, Future.valid, hj, hp, hr]
  · refine ⟨?_, ?_, ?_, ?_, ?_, ?_⟩
    · simp [Win32.Future.wait, Future.valid, hj, hw]
    · simp [Win32.Future.wait, Future.valid, hj, hw]
    · simp [Win32.Future.wait_for, Future.valid, hj, hw]
    · simp [Win32.Future.wait_for, Win32.Future.wait, Future.valid, hj, hw]
    · simp [Win32.Future.wait, Future.valid, hj, hw]
    · intro hr
      simp [Win32.Future.get, Win32.Future.wait, Future.valid, hj, hw, hr]

/-- C7 as amended, at a handle as `read` returns it and a completion of 5
bytes. -/
theorem wait_again_same_answer_witness :
    ((Future.make 3 1).valid = true ∧ (0 : Int) = 0 ∧ true = true) ∧
    Posix.Future.wait
        (Posix.Future.wait (Future.make 3 1) { suspend := 0, errno := 0, ret := 5 }).state
        { suspend := 0, errno := 0, ret := 5 }
      = { value := .ok (),
          state :=
            (Posix.Future.wait (Future.make 3 1) { suspend := 0, errno := 0, ret := 5 }).state,
          calls := [.aio_suspend64 (Future.make 3 1).job_ none,
                    .aio_return64 (Future.make 3 1).job_] } :=
  ⟨⟨by decide, rfl, rfl⟩,
   (wait_again_same_answer linuxConsts sdkConsts (Future.make 3 1) (by decide) 0
      { suspend := 0, errno := 0, ret := 5 } rfl
      { success := true, bytes := 5, last_error := 0 } rfl).1.2.2.2.2.1⟩

end Mcech
